import Mathlib

/-!
Verification development for the Fulfillment Orchestration & Resilience Layer.

Shallow embedding of:
- `services/dashboard/main.py` — the per-service health/backoff monitor
  (`fetch_metrics`, lines 336-429) and the fulfillment saga endpoints
  (`update_order_status`, lines 794-956; `process_payment`, lines 958-1077);
- `services/gateway/app/main.py` — the read-through cache with prefix
  invalidation (`cache_delete_pattern`, `_invalidate_caches`, `proxy`);
- `services/orders/app/api/routes.py` — guarded order update/delete;
- `services/shipments/app/application/service.py` and
  `services/shipments/app/api/routes.py` — shipment create/update.

Floating point times and backoff intervals are modelled over `Rat`; machine
randomness (jitter), wall-clock strings and network-level failures are
injected as explicit parameters.
-/

namespace ECI

/-! ## Health/Backoff monitor (dashboard `fetch_metrics`) -/

/-- Configuration constants of the monitor: `POLL_INTERVAL_SEC`,
`BACKOFF_FACTOR`, `BACKOFF_MAX_SEC` (dashboard `main.py` lines 233-236). -/
structure BackoffCfg where
  poll : Rat
  factor : Rat
  bmax : Rat
deriving Repr, DecidableEq

/-- Per-service entry of `SERVICE_STATE` (dashboard `main.py` lines 340-347). -/
structure ServiceState where
  last_status : Option String
  last_response_time_ms : Option Nat
  last_version : Option String
  last_releaseId : Option String
  backoff_sec : Rat
  next_check_at : Rat
deriving Repr, DecidableEq

/-- Outcome of one `client.get(f"{url}/health")` call: either an HTTP
response (with status code, elapsed ms and parsed version/releaseId) or one
of the exception classes handled in `fetch_metrics`. -/
inductive ProbeOutcome
  | response (statusCode : Nat) (respMs : Nat) (version releaseId : Option String)
  | connectError
  | timeoutError
  | otherError (msg : String)
deriving Repr, DecidableEq

/-- The per-service entry written into `metrics["services"]`. -/
structure MetricsEntry where
  status : String
  response_time_ms : Option Nat
  version : Option String
  releaseId : Option String
  error : Option String
deriving Repr, DecidableEq

/-- `min(BACKOFF_MAX_SEC, max(POLL_INTERVAL_SEC, backoff * BACKOFF_FACTOR))`
— the failure-branch backoff update (`main.py` lines 386, 395, 407, 418). -/
def failBackoff (cfg : BackoffCfg) (b : Rat) : Rat :=
  min cfg.bmax (max cfg.poll (b * cfg.factor))

/-- Result of one iteration of the `for service, url in SERVICES.items()`
loop body: the updated state, the metrics entry, and whether a probe was
actually issued. -/
structure ProbeStep where
  state : ServiceState
  entry : MetricsEntry
  probed : Bool
deriving Repr, DecidableEq

/-- One iteration of the `fetch_metrics` service loop (`main.py` lines
349-427), for a single service.  `now` is `time.monotonic()`, `jitter` is
the sampled `random.randint(-J, +J) / 1000` value, `probe` is the outcome
the HTTP client would produce if the probe is issued. -/
def fetchMetricsStep (cfg : BackoffCfg) (st : ServiceState) (now : Rat)
    (probe : ProbeOutcome) (jitter : Rat) : ProbeStep :=
  if now < st.next_check_at then
    -- skip branch: reuse last known state, touch nothing
    { state := st
      entry := { status := st.last_status.getD "unknown"
                 response_time_ms := st.last_response_time_ms
                 version := st.last_version
                 releaseId := st.last_releaseId
                 error := none }
      probed := false }
  else
    match probe with
    | .response code respMs ver rel =>
        let ok := code == 200
        let stat := if ok then "healthy" else "unhealthy"
        let b := if ok then cfg.poll else failBackoff cfg st.backoff_sec
        { state := { last_status := some stat
                     last_response_time_ms := some respMs
                     last_version := ver
                     last_releaseId := rel
                     backoff_sec := b
                     next_check_at := now + max (1/2 : Rat) (b + jitter) }
          entry := { status := stat, response_time_ms := some respMs
                     version := ver, releaseId := rel, error := none }
          probed := true }
    | .connectError =>
        let b := failBackoff cfg st.backoff_sec
        { state := { last_status := some "error"
                     last_response_time_ms := none
                     last_version := none
                     last_releaseId := none
                     backoff_sec := b
                     next_check_at := now + max (1/2 : Rat) (b + jitter) }
          entry := { status := "error", response_time_ms := none
                     version := none, releaseId := none
                     error := some "Connection failed" }
          probed := true }
    | .timeoutError =>
        let b := failBackoff cfg st.backoff_sec
        -- NB: the timeout handler does not clear last_releaseId (lines 406-416)
        { state := { last_status := some "error"
                     last_response_time_ms := none
                     last_version := none
                     last_releaseId := st.last_releaseId
                     backoff_sec := b
                     next_check_at := now + max (1/2 : Rat) (b + jitter) }
          entry := { status := "error", response_time_ms := none
                     version := none, releaseId := none
                     error := some "Timeout" }
          probed := true }
    | .otherError msg =>
        let b := failBackoff cfg st.backoff_sec
        { state := { last_status := some "error"
                     last_response_time_ms := none
                     last_version := none
                     last_releaseId := st.last_releaseId
                     backoff_sec := b
                     next_check_at := now + max (1/2 : Rat) (b + jitter) }
          entry := { status := "error", response_time_ms := none
                     version := none, releaseId := none
                     error := some (msg.take 50) }
          probed := true }

/-- A probe outcome the code treats as a failure: any exception, or an HTTP
status other than exactly 200 (`status_ok = (health_resp.status_code == 200)`,
line 363). -/
def probeFailed : ProbeOutcome → Bool
  | .response code _ _ _ => ! (code == 200)
  | .connectError => true
  | .timeoutError => true
  | .otherError _ => true

/-! ## Gateway read-through cache (`services/gateway/app/main.py`)

The two cache tiers (local `TTLCache` and redis) are purged by the same
prefix rule; the logical cache content is modelled as one association list
from key strings to opaque payload strings. -/

/-- The logical cache: key / payload pairs. -/
abbrev Cache := List (String × String)

/-- Python's `key.startswith(p)`: the character sequence of `p` leads that
of `k`. -/
def strStartsWith (k p : String) : Bool := p.data.isPrefixOf k.data

/-- `cache_delete_pattern(patterns)` (gateway `main.py` lines 128-141):
drop every entry whose key starts with one of the given key stems. -/
def cache_delete_pattern (patterns : List String) (c : Cache) : Cache :=
  c.filter (fun kv => ! patterns.any (fun p => strStartsWith kv.1 p))

/-- Python `path.lstrip('/')`. -/
def lstripSlash (path : String) : String :=
  String.mk (path.data.dropWhile (· = '/'))

/-- `_build_downstream_url` (lines 143-151). -/
def build_downstream_url (base service path : String) : String :=
  let normalized := lstripSlash path
  if normalized ≠ "" then base ++ "/" ++ service ++ "/" ++ normalized
  else base ++ "/" ++ service ++ "/"

/-- `_invalidate_caches(service, base, entity_id)` (lines 153-175). -/
def invalidate_caches (service base : String) (entity_id : Option Nat)
    (c : Cache) : Cache :=
  match entity_id with
  | some i =>
      cache_delete_pattern
        [ "rest:GET:" ++ base ++ "/" ++ service ++ "/" ++ toString i
        , "rest:GET:" ++ base ++ "/" ++ service ++ "/"
        , "gql:" ++ service ] c
  | none =>
      cache_delete_pattern
        [ "rest:GET:" ++ base ++ "/" ++ service ++ "/"
        , "gql:" ++ service ] c

/-- HTTP methods routed by the `proxy` endpoint. -/
inductive Method
  | GET | POST | PUT | PATCH | DELETE
deriving Repr, DecidableEq

def Method.isMutating : Method → Bool
  | .GET => false
  | _ => true

/-- The downstream response the proxied service produced: status code, body
payload and whether the content type is JSON. -/
structure DownResp where
  status : Nat
  body : String
  isJson : Bool
deriving Repr, DecidableEq

/-- `path.rstrip('/').split('/')[-1]` (line 198): the characters after the
last slash of the right-stripped path. -/
def lastSegment (path : String) : String :=
  let stripped := path.data.reverse.dropWhile (· = '/')
  String.mk ((stripped.takeWhile (fun c => c != '/')).reverse)

/-- Decimal value of a digit string (`int(last_segment)`). -/
def digitsToNat (cs : List Char) : Nat :=
  cs.foldl (fun n c => n * 10 + (c.toNat - 48)) 0

/-- Entity-id parse for targeted invalidation (lines 196-200):
`last_segment.isdigit()` requires a nonempty all-digit segment. -/
def parseEntityId (path : String) : Option Nat :=
  let seg := lastSegment path
  if seg ≠ "" ∧ seg.data.all Char.isDigit then some (digitsToNat seg.data)
  else none

/-- Cache lookup, newest entry wins (models `cache_get`). -/
def cache_lookup (c : Cache) (k : String) : Option String :=
  (c.find? (fun kv => kv.1 == k)).map Prod.snd

/-- `cache_set` (lines 118-126): TTL is not modelled; the entry is placed in
front so it shadows older entries with the same key. -/
def cache_set (c : Cache) (k v : String) : Cache := (k, v) :: c

/-- The cache effect of one `proxy` call (lines 177-211): on a GET, serve a
hit or cache the JSON body of the fetched response; on a mutating call whose
downstream status is below 400, invalidate the service's cache entries
strictly after the downstream response. -/
def proxyCache (method : Method) (service base path query : String)
    (resp : DownResp) (c : Cache) : Cache :=
  let url := build_downstream_url base service path
  let cacheKey := "rest:GET:" ++ url ++ ":" ++ query
  if method = .GET then
    match cache_lookup c cacheKey with
    | some _ => c
    | none =>
        if resp.status == 204 then c
        else if resp.isJson then cache_set c cacheKey resp.body
        else c
  else
    let c1 := if resp.status < 400 then
        invalidate_caches service base (parseEntityId path) c
      else c
    c1

/-- Key of the cached list view of a resource (`proxy` line 185 with the
collection path). -/
def restListKey (base service query : String) : String :=
  "rest:GET:" ++ build_downstream_url base service "" ++ ":" ++ query

/-- Key of the cached detail view of one entity. -/
def restDetailKey (base service : String) (i : Nat) (query : String) : String :=
  "rest:GET:" ++ build_downstream_url base service (toString i) ++ ":" ++ query

/-- Key of a cached GraphQL list view (`_gql_build_cache_key`, lines
542-548; the root field of each resolver equals the service name). -/
def gqlViewKey (service args : String) : String :=
  "gql:" ++ service ++ ":" ++ args

/-! ## Data model shared by the orchestration saga -/

/-- An order row of the orders service (`orders/app/domain/models.py`), with
the fields the saga reads and writes. -/
structure Order where
  id : Nat
  customer_id : Nat
  order_status : String
  payment_status : String
  payment_id : Option String
  receipt_id : Option String
deriving Repr, DecidableEq

/-- `OrderUpdate` (`orders/app/application/schemas.py` lines 17-21): all
fields optional, `none` meaning the field is absent from the request. -/
structure OrderUpdate where
  order_status : Option String := none
  payment_status : Option String := none
  payment_id : Option String := none
  receipt_id : Option String := none
deriving Repr, DecidableEq

/-- A shipment row (`shipments/app/domain/models.py`), restricted to the
columns the `ShipmentCreate`/`ShipmentUpdate` schemas expose. -/
structure Shipment where
  id : Nat
  order_id : Nat
  status : String
  carrier : Option String
  tracking_no : Option String
  shipped_at : Option String
  delivered_at : Option String
deriving Repr, DecidableEq

/-- `ShipmentCreate` (`shipments/app/application/schemas.py`).  The
`customer_id`, `items` and `shipping_address` values the dashboard sends are
not fields of this schema, so pydantic drops them. -/
structure ShipmentCreate where
  order_id : Nat
  carrier : Option String := none
  status : Option String := some "PENDING"
  tracking_no : Option String := none
  shipped_at : Option String := none
  delivered_at : Option String := none
deriving Repr, DecidableEq

/-- `ShipmentUpdate` (`shipments/app/api/routes.py` lines 9-13).  Note it
has no `shipped_at` field. -/
structure ShipmentUpdate where
  status : Option String := none
  carrier : Option String := none
  tracking_no : Option String := none
  delivered_at : Option String := none
deriving Repr, DecidableEq

/-- A customer row, reduced to what the saga consults (the shipping-address
presence check `customer.get('address_street')`). -/
structure Customer where
  id : Nat
  address_street : Option String
deriving Repr, DecidableEq

/-- One `add_activity` record (dashboard `main.py` lines 1194-1207). -/
structure Activity where
  action : String
  entity_type : String
  entity_id : String
  user : String
  details : Option String
deriving Repr, DecidableEq

/-- The joint persistent state of the downstream services plus the
dashboard's activity feed. -/
structure World where
  orders : List Order
  shipments : List Shipment
  customers : List Customer
  nextShipmentId : Nat
  activities : List Activity
deriving Repr, DecidableEq

/-! ## Orders service routes (`orders/app/api/routes.py`) -/

/-- `order.payment_status in ['COMPLETED', 'FAILED']` (line 34). -/
def paymentFinalized (o : Order) : Bool :=
  o.payment_status == "COMPLETED" || o.payment_status == "FAILED"

/-- `touching_payment_fields` (lines 35-39). -/
def touchingPaymentFields (p : OrderUpdate) : Bool :=
  p.payment_status.isSome || p.payment_id.isSome || p.receipt_id.isSome

/-- `OrderService.update` field application (`orders/app/application/service.py`
lines 178-185): only provided fields are written. -/
def applyOrderUpdate (p : OrderUpdate) (o : Order) : Order :=
  { o with
    order_status := p.order_status.getD o.order_status
    payment_status := p.payment_status.getD o.payment_status
    payment_id := if p.payment_id.isSome then p.payment_id else o.payment_id
    receipt_id := if p.receipt_id.isSome then p.receipt_id else o.receipt_id }

/-- `GET /orders/{id}` row lookup. -/
def orders_get (w : World) (oid : Nat) : Option Order :=
  w.orders.find? (fun o => o.id == oid)

/-- `PUT /orders/{id}` (`update_order`, routes lines 27-47): 404 when the
order is missing, 403 when payment is finalized and the payload touches a
payment field, otherwise 200 with the update applied. -/
def orders_update (w : World) (oid : Nat) (p : OrderUpdate) : Nat × World :=
  match orders_get w oid with
  | none => (404, w)
  | some o =>
      if paymentFinalized o && touchingPaymentFields p then (403, w)
      else
        let rows := w.orders.map (fun x => if x.id == oid then applyOrderUpdate p x else x)
        (200, { w with orders := rows })

/-- `DELETE /orders/{id}` (`delete_order`, routes lines 49-64): 404 when
missing, 403 when payment is finalized, otherwise 204 with the row removed. -/
def orders_delete (w : World) (oid : Nat) : Nat × World :=
  match orders_get w oid with
  | none => (404, w)
  | some o =>
      if paymentFinalized o then (403, w)
      else (204, { w with orders := w.orders.filter (fun x => ! (x.id == oid)) })

/-! ## Shipments service (`shipments/app/application/service.py`) -/

/-- Python falsiness of an optional string (`not payload.get(...)`). -/
def strFalsy : Option String → Bool
  | none => true
  | some s => s == ""

/-- `ShipmentService.create` (service lines 14-34): apply defaults for
falsy status/carrier/tracking/shipped_at, then insert the row.  `nowIso`
and `ts` stand for `datetime.utcnow()` at the shipments service. -/
def shipments_create (w : World) (d : ShipmentCreate) (nowIso : String)
    (ts : Nat) : World × Shipment :=
  let status := match d.status with
    | some s => if s == "" then "PENDING" else s
    | none => "PENDING"
  let s : Shipment :=
    { id := w.nextShipmentId
      order_id := d.order_id
      status := status
      carrier := if strFalsy d.carrier then some "Standard Delivery" else d.carrier
      tracking_no := if strFalsy d.tracking_no then
          some ("TRK" ++ toString d.order_id ++ toString ts)
        else d.tracking_no
      shipped_at := if strFalsy d.shipped_at then some nowIso else d.shipped_at
      delivered_at := d.delivered_at }
  ({ w with shipments := w.shipments ++ [s], nextShipmentId := w.nextShipmentId + 1 }, s)

/-- `ShipmentService.update` field application (service lines 42-44). -/
def applyShipmentUpdate (p : ShipmentUpdate) (s : Shipment) : Shipment :=
  { s with
    status := p.status.getD s.status
    carrier := if p.carrier.isSome then p.carrier else s.carrier
    tracking_no := if p.tracking_no.isSome then p.tracking_no else s.tracking_no
    delivered_at := if p.delivered_at.isSome then p.delivered_at else s.delivered_at }

/-- `PUT /shipments/{id}`: 404 when missing, otherwise 200 with the update
applied. -/
def shipments_update (w : World) (sid : Nat) (p : ShipmentUpdate) : Nat × World :=
  match w.shipments.find? (fun s => s.id == sid) with
  | none => (404, w)
  | some _ =>
      let rows := w.shipments.map (fun s => if s.id == sid then applyShipmentUpdate p s else s)
      (200, { w with shipments := rows })

/-! ## Dashboard saga (`services/dashboard/main.py`) -/

/-- Injected clock and caller identity for one saga invocation. -/
structure SagaCtx where
  nowIso : String
  ts : Nat
  username : String
deriving Repr, DecidableEq

/-- One downstream HTTP call issued by a saga invocation, in issue order. -/
inductive Call
  | orderGet (oid : Nat)
  | orderPut (oid : Nat) (p : OrderUpdate)
  | customersGet
  | shipmentsGet
  | shipPost (d : ShipmentCreate)
  | shipPut (sid : Nat) (p : ShipmentUpdate)
deriving Repr, DecidableEq

/-- Shipment-side effectful calls (creation or mutation of a Shipment). -/
def Call.isShipmentWrite : Call → Bool
  | .shipPost _ => true
  | .shipPut _ _ => true
  | _ => false

/-- The write persisting the Order's status fields. -/
def Call.isOrderWrite : Call → Bool
  | .orderPut _ _ => true
  | _ => false

/-- Network-level fate of one downstream call: delivered to the (modelled)
service, or an httpx exception with the given message. -/
inductive Fate
  | deliver
  | raiseExc (msg : String)
deriving Repr, DecidableEq

/-- Consume the next fate; an exhausted list means all remaining calls are
delivered. -/
def takeFate : List Fate → Fate × List Fate
  | [] => (.deliver, [])
  | f :: r => (f, r)

/-- The `{success, message|error, ...}` envelope both trigger endpoints
return. -/
structure Envelope where
  success : Bool
  message : Option String := none
  error : Option String := none
  payment_status : Option String := none
  order_status : Option String := none
deriving Repr, DecidableEq

/-- Result of one saga invocation: the final world, the returned envelope
and the trace of downstream calls in issue order. -/
structure SagaOut where
  world : World
  resp : Envelope
  trace : List Call
deriving Repr, DecidableEq

/-- `add_activity` (dashboard lines 1194-1207): prepend to the feed and keep
the most recent 50 records. -/
def add_activity (w : World) (action etype eid user : String)
    (details : Option String) : World :=
  { w with activities :=
      ((⟨action, etype, eid, user, details⟩ : Activity) :: w.activities).take 50 }

/-- `f"TRK{order_id}{int(now.timestamp())}"`. -/
def trkNo (oid ts : Nat) : String := "TRK" ++ toString oid ++ toString ts

/-- The exception branch of `process_payment` (lines 1072-1077). -/
def payErr (ctx : SagaCtx) (w : World) (oid : Nat) (m : String)
    (tr : List Call) : SagaOut :=
  { world := add_activity w "PAYMENT" "order" (toString oid) ctx.username
      (some ("Payment error: " ++ m))
    resp := { success := false, error := some m }
    trace := tr }

/-- The success return of `process_payment` (lines 1064-1071). -/
def payOk (ctx : SagaCtx) (w : World) (oid : Nat) (msg pstat ostat : String)
    (tr : List Call) : SagaOut :=
  { world := add_activity w "PAYMENT" "order" (toString oid) ctx.username (some msg)
    resp := { success := true, message := some msg
              payment_status := some pstat, order_status := some ostat }
    trace := tr }

/-- The order update sent on approval (lines 985-992): payment/receipt ids
are included only when truthy. -/
def approveUpdate (payment_id receipt_id : Option String) : OrderUpdate :=
  { order_status := some "PROCESSING"
    payment_status := some "COMPLETED"
    payment_id := if strFalsy payment_id then none else payment_id
    receipt_id := if strFalsy receipt_id then none else receipt_id }

/-- The order update sent on decline (lines 1053-1059). -/
def declineUpdate : OrderUpdate :=
  { order_status := some "CANCELLED", payment_status := some "FAILED" }

/-- `POST /api/orders/{order_id}/payment` (`process_payment`, dashboard
lines 958-1077), for an admin caller.  `action` is
`payment_action.get('action')`.  The `fates` list supplies the
network-level outcome of each downstream call in issue order. -/
def processPayment (ctx : SagaCtx) (w : World) (oid : Nat)
    (action : Option String) (payment_id receipt_id : Option String)
    (fates : List Fate) : SagaOut :=
  if action = some "approve" then
    let msg0 := "Payment approved for order #" ++ toString oid
    let (f1, fs1) := takeFate fates
    let tr1 := [Call.orderGet oid]
    match f1 with
    | .raiseExc m => payErr ctx w oid m tr1
    | .deliver =>
      match orders_get w oid with
      | none =>
          -- a non-200 order fetch skips the whole approval block (line 976)
          payOk ctx w oid msg0 "COMPLETED" "PROCESSING" tr1
      | some _ =>
        let upd := approveUpdate payment_id receipt_id
        let (f2, fs2) := takeFate fs1
        let tr2 := tr1 ++ [Call.orderPut oid upd]
        match f2 with
        | .raiseExc m => payErr ctx w oid m tr2
        | .deliver =>
          -- a non-200 update only logs a warning (line 1000); the saga proceeds
          let w2 := (orders_update w oid upd).2
          let (f3, fs3) := takeFate fs2
          let tr3 := tr2 ++ [Call.customersGet]
          match f3 with
          | .raiseExc m => payErr ctx w2 oid m tr3
          | .deliver =>
            -- the customer list only feeds shipping_address, which the
            -- shipments schema drops
            let d : ShipmentCreate := { order_id := oid, status := some "PENDING" }
            let (f4, _) := takeFate fs3
            let tr4 := tr3 ++ [Call.shipPost d]
            match f4 with
            | .raiseExc m => payErr ctx w2 oid m tr4
            | .deliver =>
              let (w3, s) := shipments_create w2 d ctx.nowIso ctx.ts
              let w4 := add_activity w3 "CREATE" "shipment" (toString s.id)
                  ctx.username (some ("Shipment created for order #" ++ toString oid))
              payOk ctx w4 oid
                (msg0 ++ " | Shipment #" ++ toString s.id ++ " created")
                "COMPLETED" "PROCESSING" tr4
  else
    let msg0 := "Payment declined for order #" ++ toString oid
    let (f1, _) := takeFate fates
    let tr1 := [Call.orderPut oid declineUpdate]
    match f1 with
    | .raiseExc m => payErr ctx w oid m tr1
    | .deliver =>
      let w1 := (orders_update w oid declineUpdate).2
      payOk ctx w1 oid msg0 "FAILED" "CANCELLED" tr1

/-- The tail of `update_order_status` shared by every branch (lines
950-952): append the order AuditRecord and return the success envelope. -/
def finishUOS (ctx : SagaCtx) (w : World) (oid : Nat) (ostat : Option String)
    (tr : List Call) : SagaOut :=
  { world := add_activity w "UPDATE" "order" (toString oid) ctx.username
      (some ("Updated order status to " ++ ostat.getD "None"))
    resp := { success := true, message := some "Order status updated" }
    trace := tr }

/-- Update payload moving an existing shipment to IN_TRANSIT (lines
893-902), backfilling tracking number and carrier only when falsy.  The
`shipped_at` backfill the dashboard also sends is dropped because
`ShipmentUpdate` has no such field. -/
def inTransitUpdate (ctx : SagaCtx) (oid : Nat) (sh : Shipment) : ShipmentUpdate :=
  { status := some "IN_TRANSIT"
    tracking_no := if strFalsy sh.tracking_no then some (trkNo oid ctx.ts) else none
    carrier := if strFalsy sh.carrier then some "Standard Delivery" else none
    delivered_at := none }

/-- Shipment payload created when SHIPPED finds no existing shipment
(lines 860-872). -/
def shippedCreate (ctx : SagaCtx) (oid : Nat) : ShipmentCreate :=
  { order_id := oid
    status := some "IN_TRANSIT"
    carrier := some "Standard Delivery"
    tracking_no := some (trkNo oid ctx.ts)
    shipped_at := some ctx.nowIso
    delivered_at := none }

/-- The SHIPPED branch of the shipment phase (lines 821-909): re-fetch the
order, guard on `payment_status == 'COMPLETED'`, then create a shipment or
move the existing one to IN_TRANSIT. -/
def uosShipped (ctx : SagaCtx) (w1 : World) (oid : Nat) (osh : Option Shipment)
    (ostat : Option String) (tr : List Call) (fs : List Fate) : SagaOut :=
  let (f3, fs3) := takeFate fs
  let tr3 := tr ++ [Call.orderGet oid]
  match f3 with
  | .raiseExc _ => finishUOS ctx w1 oid ostat tr3
  | .deliver =>
    match orders_get w1 oid with
    | none => finishUOS ctx w1 oid ostat tr3
    | some o =>
      if ! (o.payment_status == "COMPLETED") then
        -- warning only (line 830): no shipment mutation
        finishUOS ctx w1 oid ostat tr3
      else
        match osh with
        | none =>
          let (f4, fs4) := takeFate fs3
          let tr4 := tr3 ++ [Call.customersGet]
          match f4 with
          | .raiseExc _ => finishUOS ctx w1 oid ostat tr4
          | .deliver =>
            let d := shippedCreate ctx oid
            let (f5, _) := takeFate fs4
            let tr5 := tr4 ++ [Call.shipPost d]
            match f5 with
            | .raiseExc _ => finishUOS ctx w1 oid ostat tr5
            | .deliver =>
              let (w2, s) := shipments_create w1 d ctx.nowIso ctx.ts
              let w3 := add_activity w2 "CREATE" "shipment" (toString s.id)
                  ctx.username (some ("Shipment created for order #" ++ toString oid))
              finishUOS ctx w3 oid ostat tr5
        | some sh =>
          let p := inTransitUpdate ctx oid sh
          let (f4, _) := takeFate fs3
          let tr4 := tr3 ++ [Call.shipPut sh.id p]
          match f4 with
          | .raiseExc _ => finishUOS ctx w1 oid ostat tr4
          | .deliver =>
            let w2 := (shipments_update w1 sh.id p).2
            let w3 := add_activity w2 "UPDATE" "shipment" (toString sh.id)
                ctx.username (some ("Shipment moved to IN_TRANSIT for order #" ++ toString oid))
            finishUOS ctx w3 oid ostat tr4

/-- The DELIVERED branch (lines 911-926): only a shipment currently
IN_TRANSIT or PENDING is delivered. -/
def uosDelivered (ctx : SagaCtx) (w1 : World) (oid : Nat) (sh : Shipment)
    (ostat : Option String) (tr : List Call) (fs : List Fate) : SagaOut :=
  if sh.status == "IN_TRANSIT" || sh.status == "PENDING" then
    let p : ShipmentUpdate := { status := some "DELIVERED", delivered_at := some ctx.nowIso }
    let (f3, _) := takeFate fs
    let tr3 := tr ++ [Call.shipPut sh.id p]
    match f3 with
    | .raiseExc _ => finishUOS ctx w1 oid ostat tr3
    | .deliver =>
      let w2 := (shipments_update w1 sh.id p).2
      let w3 := add_activity w2 "UPDATE" "shipment" (toString sh.id)
          ctx.username (some ("Shipment delivered for order #" ++ toString oid))
      finishUOS ctx w3 oid ostat tr3
  else
    finishUOS ctx w1 oid ostat tr

/-- The UNDELIVERED / CANCELLED branches (lines 928-945): cancel the
existing shipment. -/
def uosCancel (ctx : SagaCtx) (w1 : World) (oid : Nat) (sh : Shipment)
    (ostat : Option String) (detail : String) (tr : List Call)
    (fs : List Fate) : SagaOut :=
  let p : ShipmentUpdate := { status := some "CANCELLED" }
  let (f3, _) := takeFate fs
  let tr3 := tr ++ [Call.shipPut sh.id p]
  match f3 with
  | .raiseExc _ => finishUOS ctx w1 oid ostat tr3
  | .deliver =>
    let w2 := (shipments_update w1 sh.id p).2
    let w3 := add_activity w2 "UPDATE" "shipment" (toString sh.id)
        ctx.username (some detail)
    finishUOS ctx w3 oid ostat tr3

/-- The inner `try` of `update_order_status` (lines 812-948): list the
shipments and dispatch on the requested order status.  Any exception raised
here is swallowed and the saga still appends the order AuditRecord and
reports success. -/
def uosShipPhase (ctx : SagaCtx) (w1 : World) (oid : Nat)
    (ostat : Option String) (tr : List Call) (fs : List Fate) : SagaOut :=
  let (f2, fs2) := takeFate fs
  let tr2 := tr ++ [Call.shipmentsGet]
  match f2 with
  | .raiseExc _ => finishUOS ctx w1 oid ostat tr2
  | .deliver =>
    let osh := w1.shipments.find? (fun s => s.order_id == oid)
    if ostat = some "SHIPPED" then
      uosShipped ctx w1 oid osh ostat tr2 fs2
    else if ostat = some "DELIVERED" then
      match osh with
      | some sh => uosDelivered ctx w1 oid sh ostat tr2 fs2
      | none => finishUOS ctx w1 oid ostat tr2
    else if ostat = some "UNDELIVERED" then
      match osh with
      | some sh => uosCancel ctx w1 oid sh ostat
          ("Shipment cancelled (undelivered) for order #" ++ toString oid) tr2 fs2
      | none => finishUOS ctx w1 oid ostat tr2
    else if ostat = some "CANCELLED" then
      match osh with
      | some sh => uosCancel ctx w1 oid sh ostat
          ("Shipment cancelled for order #" ++ toString oid) tr2 fs2
      | none => finishUOS ctx w1 oid ostat tr2
    else
      finishUOS ctx w1 oid ostat tr2

/-- `PUT /api/orders/{order_id}/status` (`update_order_status`, dashboard
lines 794-956), for an admin caller.  The order write is issued first; the
shipment phase runs only when it returned HTTP 200. -/
def updateOrderStatus (ctx : SagaCtx) (w : World) (oid : Nat)
    (sd : OrderUpdate) (fates : List Fate) : SagaOut :=
  let (f1, fs1) := takeFate fates
  let tr1 := [Call.orderPut oid sd]
  match f1 with
  | .raiseExc m =>
      { world := w, resp := { success := false, error := some m }, trace := tr1 }
  | .deliver =>
    let res := orders_update w oid sd
    if res.1 == 200 then
      uosShipPhase ctx res.2 oid sd.order_status tr1 fs1
    else
      { world := res.2
        resp := { success := false
                  error := some ("Failed to update order: HTTP " ++ toString res.1) }
        trace := tr1 }

/-- An envelope is structurally well formed when the success flag is
accompanied by a message, and failure by an error. -/
def envelopeWF (e : Envelope) : Bool :=
  if e.success then e.message.isSome else e.error.isSome

/-! ## Helper lemmas -/

theorem le_failBackoff (cfg : BackoffCfg) (b : Rat) (hb0 : 0 ≤ b)
    (hbm : b ≤ cfg.bmax) (hf : 1 ≤ cfg.factor) : b ≤ failBackoff cfg b := by
  unfold failBackoff
  exact le_min hbm (le_trans (le_mul_of_one_le_right hb0 hf) (le_max_right _ _))

theorem failBackoff_le (cfg : BackoffCfg) (b : Rat) :
    failBackoff cfg b ≤ cfg.bmax := min_le_left _ _

theorem restKey_starts (b s p q : String) :
    strStartsWith ("rest:GET:" ++ build_downstream_url b s p ++ ":" ++ q)
      ("rest:GET:" ++ b ++ "/" ++ s ++ "/") = true := by
  simp only [build_downstream_url, strStartsWith]
  split <;> simp [List.append_assoc]

theorem gqlKey_starts (srv args : String) :
    strStartsWith (gqlViewKey srv args) ("gql:" ++ srv) = true := by
  simp [gqlViewKey, strStartsWith, List.append_assoc]

theorem not_mem_cache_delete_pattern (patterns : List String) (c : Cache)
    (k v pfx : String) (hp : pfx ∈ patterns)
    (hk : strStartsWith k pfx = true) :
    (k, v) ∉ cache_delete_pattern patterns c := by
  intro hmem
  have h2 := (List.mem_filter.mp hmem).2
  simp only [Bool.not_eq_true', List.any_eq_false] at h2
  exact absurd hk (by simpa using h2 pfx hp)

theorem invalidate_caches_clears (srv b : String) (eid : Option Nat)
    (c : Cache) (k v : String)
    (hk : strStartsWith k ("rest:GET:" ++ b ++ "/" ++ srv ++ "/") = true
        ∨ strStartsWith k ("gql:" ++ srv) = true) :
    (k, v) ∉ invalidate_caches srv b eid c := by
  cases eid with
  | none =>
      rcases hk with hk | hk
      · exact not_mem_cache_delete_pattern _ _ _ _ _ (by simp) hk
      · exact not_mem_cache_delete_pattern _ _ _ _ _ (by simp) hk
  | some i =>
      rcases hk with hk | hk
      · exact not_mem_cache_delete_pattern _ _ _ _ _ (by simp) hk
      · exact not_mem_cache_delete_pattern _ _ _ _ _ (by simp) hk

/-! ## C4: cache invalidation on mutating gateway calls (confirmed) -/

/-- C4: after a mutating `proxy` call (POST/PUT/PATCH/DELETE) whose
downstream status is below 400, no cached list-view, detail-view or
GraphQL-view entry of the targeted resource survives in the cache, so a
later read of those keys cannot see a pre-mutation value; when the
downstream answers with status 400 or above, the cache is left exactly as
it was. -/
theorem C4_cache_invalidation (method : Method) (srv b path query : String)
    (resp : DownResp) (c : Cache) (hm : method.isMutating = true) :
    (resp.status < 400 →
      (∀ q v, (restListKey b srv q, v) ∉ proxyCache method srv b path query resp c)
      ∧ (∀ i q v, (restDetailKey b srv i q, v) ∉ proxyCache method srv b path query resp c)
      ∧ (∀ args v, (gqlViewKey srv args, v) ∉ proxyCache method srv b path query resp c))
    ∧ (400 ≤ resp.status → proxyCache method srv b path query resp c = c) := by
  have hng : ¬ method = Method.GET := by
    cases method <;> simp_all [Method.isMutating]
  constructor
  · intro hlt
    have hres : proxyCache method srv b path query resp c
        = invalidate_caches srv b (parseEntityId path) c := by
      simp [proxyCache, hng, hlt]
    refine ⟨fun q v => ?_, fun i q v => ?_, fun args v => ?_⟩ <;> rw [hres]
    · exact invalidate_caches_clears srv b _ c _ v (Or.inl (restKey_starts b srv "" q))
    · exact invalidate_caches_clears srv b _ c _ v
        (Or.inl (restKey_starts b srv (toString i) q))
    · exact invalidate_caches_clears srv b _ c _ v (Or.inr (gqlKey_starts srv args))
  · intro hge
    have hlt : ¬ resp.status < 400 := by omega
    simp [proxyCache, hng, hlt]

/-- Witness for `C4_cache_invalidation`: a PUT to `orders/5` answered 200
evicts a previously cached orders list entry. -/
theorem C4_cache_invalidation_witness :
    (restListKey "http://orders:8000" "orders" "", "stale") ∉
      proxyCache .PUT "orders" "http://orders:8000" "5" ""
        { status := 200, body := "ok", isJson := true }
        [(restListKey "http://orders:8000" "orders" "", "stale")] :=
  ((C4_cache_invalidation .PUT "orders" "http://orders:8000" "5" ""
      { status := 200, body := "ok", isJson := true }
      [(restListKey "http://orders:8000" "orders" "", "stale")]
      (by decide)).1 (by decide)).1 "" "stale"

/-! ## C6: backoff discipline of the health monitor (corrected)

The claim describes the failure set as "connection error, timeout, non-2xx,
or any exception", implying every 2xx probe is successful and resets the
backoff.  The code's success test is `status_code == 200` exactly (line
363), so a 201 or 204 health response runs the failure branch. -/

/-- C6 counterexample: a probe answered HTTP 201 — a 2xx status, hence a
successful probe per the claim — does not reset the backoff to
`poll_interval`; the code applies the failure-branch formula and doubles it
instead. -/
theorem C6_counterexample :
    (fetchMetricsStep { poll := 2, factor := 2, bmax := 30 }
        { last_status := some "healthy", last_response_time_ms := some 5
          last_version := none, last_releaseId := none
          backoff_sec := 2, next_check_at := 0 }
        0 (.response 201 5 none none) 0).state.backoff_sec = 4
    ∧ ((2 : Rat) : Rat) ≠ 4 := by
  constructor
  · show failBackoff { poll := 2, factor := 2, bmax := 30 } 2 = 4
    unfold failBackoff
    norm_num
  · norm_num

/-- C6 (amended): with success meaning HTTP status exactly 200, every
failed probe (any exception, or any non-200 status) updates the backoff to
`min(backoff_max, max(poll_interval, backoff * backoff_factor))` — hence
monotonically non-decreasing up to `backoff_max` whenever the factor is at
least 1 — and every status-200 probe resets it to `poll_interval`. -/
theorem C6_amended_backoff (cfg : BackoffCfg) (st : ServiceState) (now : Rat)
    (probe : ProbeOutcome) (jitter : Rat)
    (hdue : ¬ now < st.next_check_at) (hf : 1 ≤ cfg.factor)
    (hb0 : 0 ≤ st.backoff_sec) (hbm : st.backoff_sec ≤ cfg.bmax) :
    (probeFailed probe = true →
      (fetchMetricsStep cfg st now probe jitter).state.backoff_sec
          = failBackoff cfg st.backoff_sec
      ∧ st.backoff_sec ≤ (fetchMetricsStep cfg st now probe jitter).state.backoff_sec
      ∧ (fetchMetricsStep cfg st now probe jitter).state.backoff_sec ≤ cfg.bmax)
    ∧ (probeFailed probe = false →
      (fetchMetricsStep cfg st now probe jitter).state.backoff_sec = cfg.poll) := by
  have hmono := le_failBackoff cfg st.backoff_sec hb0 hbm hf
  have hle := failBackoff_le cfg st.backoff_sec
  constructor
  · intro hfail
    cases probe with
    | response code respMs ver rel =>
        have hcode : (code == 200) = false := by
          simpa [probeFailed] using hfail
        refine ⟨?_, ?_, ?_⟩ <;> simp [fetchMetricsStep, hdue, hcode, hmono, hle]
    | connectError => exact ⟨by simp [fetchMetricsStep, hdue], by
        simpa [fetchMetricsStep, hdue] using hmono, by
        simpa [fetchMetricsStep, hdue] using hle⟩
    | timeoutError => exact ⟨by simp [fetchMetricsStep, hdue], by
        simpa [fetchMetricsStep, hdue] using hmono, by
        simpa [fetchMetricsStep, hdue] using hle⟩
    | otherError m => exact ⟨by simp [fetchMetricsStep, hdue], by
        simpa [fetchMetricsStep, hdue] using hmono, by
        simpa [fetchMetricsStep, hdue] using hle⟩
  · intro hok
    cases probe with
    | response code respMs ver rel =>
        have hcode : (code == 200) = true := by
          simpa [probeFailed] using hok
        simp [fetchMetricsStep, hdue, hcode]
    | connectError => simp [probeFailed] at hok
    | timeoutError => simp [probeFailed] at hok
    | otherError m => simp [probeFailed] at hok

/-- Witness for `C6_amended_backoff` at a concrete failing and a concrete
succeeding probe. -/
theorem C6_amended_backoff_witness :
    ((probeFailed .connectError = true →
      (fetchMetricsStep { poll := 2, factor := 2, bmax := 30 }
          { last_status := none, last_response_time_ms := none
            last_version := none, last_releaseId := none
            backoff_sec := 2, next_check_at := 0 } 0 .connectError 0).state.backoff_sec
          = failBackoff { poll := 2, factor := 2, bmax := 30 } 2
      ∧ (2 : Rat) ≤ (fetchMetricsStep { poll := 2, factor := 2, bmax := 30 }
          { last_status := none, last_response_time_ms := none
            last_version := none, last_releaseId := none
            backoff_sec := 2, next_check_at := 0 } 0 .connectError 0).state.backoff_sec
      ∧ (fetchMetricsStep { poll := 2, factor := 2, bmax := 30 }
          { last_status := none, last_response_time_ms := none
            last_version := none, last_releaseId := none
            backoff_sec := 2, next_check_at := 0 } 0 .connectError 0).state.backoff_sec
          ≤ (30 : Rat))
    ∧ (probeFailed .connectError = false →
      (fetchMetricsStep { poll := 2, factor := 2, bmax := 30 }
          { last_status := none, last_response_time_ms := none
            last_version := none, last_releaseId := none
            backoff_sec := 2, next_check_at := 0 } 0 .connectError 0).state.backoff_sec
          = (2 : Rat))) :=
  C6_amended_backoff { poll := 2, factor := 2, bmax := 30 }
    { last_status := none, last_response_time_ms := none
      last_version := none, last_releaseId := none
      backoff_sec := 2, next_check_at := 0 } 0 .connectError 0
    (by norm_num) (by norm_num) (by norm_num) (by norm_num)

/-! ## C7: the skip branch of the health monitor (confirmed) -/

/-- C7: while `now < next_check_at`, the monitor issues no probe, returns
the previously recorded status, latency, version and releaseId, and leaves
the whole per-service state — including `backoff_sec` and `next_check_at` —
unchanged. -/
theorem C7_skip_returns_cached (cfg : BackoffCfg) (st : ServiceState)
    (now : Rat) (probe : ProbeOutcome) (jitter : Rat) (s : String)
    (hskip : now < st.next_check_at) (hs : st.last_status = some s) :
    fetchMetricsStep cfg st now probe jitter =
      { state := st
        entry := { status := s
                   response_time_ms := st.last_response_time_ms
                   version := st.last_version
                   releaseId := st.last_releaseId
                   error := none }
        probed := false } := by
  simp [fetchMetricsStep, hskip, hs]

/-- Witness for `C7_skip_returns_cached` at a concrete state. -/
theorem C7_skip_returns_cached_witness :
    fetchMetricsStep { poll := 2, factor := 2, bmax := 30 }
      { last_status := some "healthy", last_response_time_ms := some 12
        last_version := some "1.0", last_releaseId := some "r1"
        backoff_sec := 4, next_check_at := 10 } 5 .connectError 0 =
      { state := { last_status := some "healthy", last_response_time_ms := some 12
                   last_version := some "1.0", last_releaseId := some "r1"
                   backoff_sec := 4, next_check_at := 10 }
        entry := { status := "healthy", response_time_ms := some 12
                   version := some "1.0", releaseId := some "r1", error := none }
        probed := false } :=
  C7_skip_returns_cached { poll := 2, factor := 2, bmax := 30 }
    { last_status := some "healthy", last_response_time_ms := some 12
      last_version := some "1.0", last_releaseId := some "r1"
      backoff_sec := 4, next_check_at := 10 } 5 .connectError 0 "healthy"
    (by norm_num) rfl

/-! ## C8: immutability of finalized orders at the orders service
(confirmed) -/

/-- C8: once an order's `payment_status` is COMPLETED or FAILED, the orders
service answers 403 and leaves the world unchanged for (a) any update
touching `payment_status`, `payment_id` or `receipt_id` and (b) any delete
of the order, while updates touching none of the payment fields still get
HTTP 200. -/
theorem C8_finalized_guard (w : World) (oid : Nat) (p : OrderUpdate)
    (o : Order) (h1 : orders_get w oid = some o)
    (h2 : paymentFinalized o = true) :
    (touchingPaymentFields p = true → orders_update w oid p = (403, w))
    ∧ orders_delete w oid = (403, w)
    ∧ (touchingPaymentFields p = false → (orders_update w oid p).1 = 200) := by
  refine ⟨fun ht => ?_, ?_, fun ht => ?_⟩
  · simp [orders_update, h1, h2, ht]
  · simp [orders_delete, h1, h2]
  · simp [orders_update, h1, h2, ht]

/-- Witness for `C8_finalized_guard`: a COMPLETED order, one payment-field
update, one status-only update, one delete. -/
theorem C8_finalized_guard_witness :
    (touchingPaymentFields { payment_status := some "FAILED" } = true →
      orders_update
        { orders := [{ id := 1, customer_id := 1, order_status := "PROCESSING"
                       payment_status := "COMPLETED", payment_id := none
                       receipt_id := none }]
          shipments := [], customers := [], nextShipmentId := 1, activities := [] }
        1 { payment_status := some "FAILED" } =
      (403, { orders := [{ id := 1, customer_id := 1, order_status := "PROCESSING"
                           payment_status := "COMPLETED", payment_id := none
                           receipt_id := none }]
              shipments := [], customers := [], nextShipmentId := 1, activities := [] }))
    ∧ orders_delete
        { orders := [{ id := 1, customer_id := 1, order_status := "PROCESSING"
                       payment_status := "COMPLETED", payment_id := none
                       receipt_id := none }]
          shipments := [], customers := [], nextShipmentId := 1, activities := [] } 1 =
      (403, { orders := [{ id := 1, customer_id := 1, order_status := "PROCESSING"
                           payment_status := "COMPLETED", payment_id := none
                           receipt_id := none }]
              shipments := [], customers := [], nextShipmentId := 1, activities := [] })
    ∧ (touchingPaymentFields { payment_status := some "FAILED" } = false →
      (orders_update
        { orders := [{ id := 1, customer_id := 1, order_status := "PROCESSING"
                       payment_status := "COMPLETED", payment_id := none
                       receipt_id := none }]
          shipments := [], customers := [], nextShipmentId := 1, activities := [] }
        1 { payment_status := some "FAILED" }).1 = 200) :=
  C8_finalized_guard _ 1 { payment_status := some "FAILED" }
    { id := 1, customer_id := 1, order_status := "PROCESSING"
      payment_status := "COMPLETED", payment_id := none, receipt_id := none }
    (by decide) (by decide)

/-! ## C10: any non-'approve' action runs the decline path (confirmed) -/

/-- C10: whenever the payment action is anything other than the exact
string 'approve' — absent included — `process_payment` runs the decline
path: the only downstream call is the order write setting
`payment_status=FAILED` and `order_status=CANCELLED`, and the envelope
reports success with those statuses.  No validation rejects unknown
actions. -/
theorem C10_non_approve_declines (ctx : SagaCtx) (w : World) (oid : Nat)
    (action payment_id receipt_id : Option String)
    (h : ¬ action = some "approve") :
    (processPayment ctx w oid action payment_id receipt_id []).trace
        = [Call.orderPut oid declineUpdate]
    ∧ (processPayment ctx w oid action payment_id receipt_id []).resp.success = true
    ∧ (processPayment ctx w oid action payment_id receipt_id []).resp.payment_status
        = some "FAILED"
    ∧ (processPayment ctx w oid action payment_id receipt_id []).resp.order_status
        = some "CANCELLED"
    ∧ (processPayment ctx w oid action payment_id receipt_id []).world.orders
        = (orders_update w oid declineUpdate).2.orders := by
  refine ⟨?_, ?_, ?_, ?_, ?_⟩ <;>
    simp [processPayment, h, takeFate, payOk, add_activity]

/-- Witness for `C10_non_approve_declines` with a misspelled action. -/
theorem C10_non_approve_declines_witness :
    (processPayment { nowIso := "T0", ts := 1000, username := "admin" }
        { orders := [{ id := 1, customer_id := 1, order_status := "PENDING"
                       payment_status := "PENDING", payment_id := none
                       receipt_id := none }]
          shipments := [], customers := [], nextShipmentId := 1, activities := [] }
        1 (some "aprove") none none []).trace = [Call.orderPut 1 declineUpdate]
    ∧ (processPayment { nowIso := "T0", ts := 1000, username := "admin" }
        { orders := [{ id := 1, customer_id := 1, order_status := "PENDING"
                       payment_status := "PENDING", payment_id := none
                       receipt_id := none }]
          shipments := [], customers := [], nextShipmentId := 1, activities := [] }
        1 (some "aprove") none none []).resp.success = true
    ∧ (processPayment { nowIso := "T0", ts := 1000, username := "admin" }
        { orders := [{ id := 1, customer_id := 1, order_status := "PENDING"
                       payment_status := "PENDING", payment_id := none
                       receipt_id := none }]
          shipments := [], customers := [], nextShipmentId := 1, activities := [] }
        1 (some "aprove") none none []).resp.payment_status = some "FAILED"
    ∧ (processPayment { nowIso := "T0", ts := 1000, username := "admin" }
        { orders := [{ id := 1, customer_id := 1, order_status := "PENDING"
                       payment_status := "PENDING", payment_id := none
                       receipt_id := none }]
          shipments := [], customers := [], nextShipmentId := 1, activities := [] }
        1 (some "aprove") none none []).resp.order_status = some "CANCELLED"
    ∧ (processPayment { nowIso := "T0", ts := 1000, username := "admin" }
        { orders := [{ id := 1, customer_id := 1, order_status := "PENDING"
                       payment_status := "PENDING", payment_id := none
                       receipt_id := none }]
          shipments := [], customers := [], nextShipmentId := 1, activities := [] }
        1 (some "aprove") none none []).world.orders
        = (orders_update
            { orders := [{ id := 1, customer_id := 1, order_status := "PENDING"
                           payment_status := "PENDING", payment_id := none
                           receipt_id := none }]
              shipments := [], customers := [], nextShipmentId := 1, activities := [] }
            1 declineUpdate).2.orders :=
  C10_non_approve_declines { nowIso := "T0", ts := 1000, username := "admin" }
    { orders := [{ id := 1, customer_id := 1, order_status := "PENDING"
                   payment_status := "PENDING", payment_id := none
                   receipt_id := none }]
      shipments := [], customers := [], nextShipmentId := 1, activities := [] }
    1 (some "aprove") none none (by decide)

/-! ## Saga helper lemmas -/

theorem orders_update_shipments (w : World) (oid : Nat) (p : OrderUpdate) :
    (orders_update w oid p).2.shipments = w.shipments := by
  unfold orders_update
  repeat' split
  all_goals rfl

theorem shipments_update_orders (w : World) (sid : Nat) (p : ShipmentUpdate) :
    (shipments_update w sid p).2.orders = w.orders := by
  unfold shipments_update
  repeat' split
  all_goals rfl

theorem uosShipped_orders (ctx : SagaCtx) (w1 : World) (oid : Nat)
    (osh : Option Shipment) (ostat : Option String) (tr : List Call)
    (fs : List Fate) :
    (uosShipped ctx w1 oid osh ostat tr fs).world.orders = w1.orders := by
  unfold uosShipped
  repeat' split
  all_goals first
    | rfl
    | simp [finishUOS, add_activity, shipments_update_orders, shipments_create]

theorem uosDelivered_orders (ctx : SagaCtx) (w1 : World) (oid : Nat)
    (sh : Shipment) (ostat : Option String) (tr : List Call) (fs : List Fate) :
    (uosDelivered ctx w1 oid sh ostat tr fs).world.orders = w1.orders := by
  unfold uosDelivered
  repeat' split
  all_goals first
    | rfl
    | simp [finishUOS, add_activity, shipments_update_orders]

theorem uosCancel_orders (ctx : SagaCtx) (w1 : World) (oid : Nat)
    (sh : Shipment) (ostat : Option String) (detail : String) (tr : List Call)
    (fs : List Fate) :
    (uosCancel ctx w1 oid sh ostat detail tr fs).world.orders = w1.orders := by
  unfold uosCancel
  repeat' split
  all_goals first
    | rfl
    | simp [finishUOS, add_activity, shipments_update_orders]

theorem uosShipPhase_orders (ctx : SagaCtx) (w1 : World) (oid : Nat)
    (ostat : Option String) (tr : List Call) (fs : List Fate) :
    (uosShipPhase ctx w1 oid ostat tr fs).world.orders = w1.orders := by
  unfold uosShipPhase
  repeat' (first | split | dsimp only)
  all_goals first
    | rfl
    | apply uosShipped_orders
    | apply uosDelivered_orders
    | apply uosCancel_orders

theorem uosShipped_shipments_guard (ctx : SagaCtx) (w1 : World) (oid : Nat)
    (osh : Option Shipment) (ostat : Option String) (tr : List Call)
    (fs : List Fate)
    (hne : (uosShipped ctx w1 oid osh ostat tr fs).world.shipments
        ≠ w1.shipments) :
    (orders_get w1 oid).map Order.payment_status = some "COMPLETED" := by
  revert hne
  unfold uosShipped
  repeat' split
  all_goals intro hne
  all_goals simp_all [finishUOS, add_activity]

theorem uosShipPhase_shipped_guard (ctx : SagaCtx) (w1 : World) (oid : Nat)
    (tr : List Call) (fs : List Fate)
    (hne : (uosShipPhase ctx w1 oid (some "SHIPPED") tr fs).world.shipments
        ≠ w1.shipments) :
    (orders_get w1 oid).map Order.payment_status = some "COMPLETED" := by
  revert hne
  unfold uosShipPhase
  repeat' split
  all_goals intro hne
  all_goals first
    | exact uosShipped_shipments_guard _ _ _ _ _ _ _ hne
    | simp_all [finishUOS, add_activity]

theorem uosShipped_trace_spec (ctx : SagaCtx) (w1 : World) (oid : Nat)
    (osh : Option Shipment) (ostat : Option String) (a : Call)
    (tr : List Call) (fs : List Fate)
    (h : tr.all (fun c => ! c.isOrderWrite) = true) :
    (uosShipped ctx w1 oid osh ostat (a :: tr) fs).trace.head? = some a
    ∧ ((uosShipped ctx w1 oid osh ostat (a :: tr) fs).trace.drop 1).all
        (fun c => ! c.isOrderWrite) = true := by
  unfold uosShipped
  repeat' (first | split | dsimp only)
  all_goals constructor
  all_goals simp_all [finishUOS, List.all_append, Call.isOrderWrite]

theorem uosDelivered_trace_spec (ctx : SagaCtx) (w1 : World) (oid : Nat)
    (sh : Shipment) (ostat : Option String) (a : Call) (tr : List Call)
    (fs : List Fate)
    (h : tr.all (fun c => ! c.isOrderWrite) = true) :
    (uosDelivered ctx w1 oid sh ostat (a :: tr) fs).trace.head? = some a
    ∧ ((uosDelivered ctx w1 oid sh ostat (a :: tr) fs).trace.drop 1).all
        (fun c => ! c.isOrderWrite) = true := by
  unfold uosDelivered
  repeat' (first | split | dsimp only)
  all_goals constructor
  all_goals simp_all [finishUOS, List.all_append, Call.isOrderWrite]

theorem uosCancel_trace_spec (ctx : SagaCtx) (w1 : World) (oid : Nat)
    (sh : Shipment) (ostat : Option String) (detail : String) (a : Call)
    (tr : List Call) (fs : List Fate)
    (h : tr.all (fun c => ! c.isOrderWrite) = true) :
    (uosCancel ctx w1 oid sh ostat detail (a :: tr) fs).trace.head? = some a
    ∧ ((uosCancel ctx w1 oid sh ostat detail (a :: tr) fs).trace.drop 1).all
        (fun c => ! c.isOrderWrite) = true := by
  unfold uosCancel
  repeat' (first | split | dsimp only)
  all_goals constructor
  all_goals simp_all [finishUOS, List.all_append, Call.isOrderWrite]

theorem uosShipPhase_trace_spec (ctx : SagaCtx) (w1 : World) (oid : Nat)
    (ostat : Option String) (a : Call) (tr : List Call) (fs : List Fate)
    (h : tr.all (fun c => ! c.isOrderWrite) = true) :
    (uosShipPhase ctx w1 oid ostat (a :: tr) fs).trace.head? = some a
    ∧ ((uosShipPhase ctx w1 oid ostat (a :: tr) fs).trace.drop 1).all
        (fun c => ! c.isOrderWrite) = true := by
  unfold uosShipPhase
  repeat' (first | split | dsimp only)
  all_goals solve
    | (apply uosShipped_trace_spec; simp_all [List.all_append, Call.isOrderWrite])
    | (apply uosDelivered_trace_spec; simp_all [List.all_append, Call.isOrderWrite])
    | (apply uosCancel_trace_spec; simp_all [List.all_append, Call.isOrderWrite])
    | (constructor <;> simp_all [finishUOS, List.all_append, Call.isOrderWrite])

theorem envelopeWF_uosShipped (ctx : SagaCtx) (w1 : World) (oid : Nat)
    (osh : Option Shipment) (ostat : Option String) (tr : List Call)
    (fs : List Fate) :
    envelopeWF (uosShipped ctx w1 oid osh ostat tr fs).resp = true := by
  unfold uosShipped
  repeat' (first | split | dsimp only)
  all_goals simp [finishUOS, envelopeWF]

theorem envelopeWF_uosDelivered (ctx : SagaCtx) (w1 : World) (oid : Nat)
    (sh : Shipment) (ostat : Option String) (tr : List Call) (fs : List Fate) :
    envelopeWF (uosDelivered ctx w1 oid sh ostat tr fs).resp = true := by
  unfold uosDelivered
  repeat' (first | split | dsimp only)
  all_goals simp [finishUOS, envelopeWF]

theorem envelopeWF_uosCancel (ctx : SagaCtx) (w1 : World) (oid : Nat)
    (sh : Shipment) (ostat : Option String) (detail : String) (tr : List Call)
    (fs : List Fate) :
    envelopeWF (uosCancel ctx w1 oid sh ostat detail tr fs).resp = true := by
  unfold uosCancel
  repeat' (first | split | dsimp only)
  all_goals simp [finishUOS, envelopeWF]

theorem envelopeWF_uosShipPhase (ctx : SagaCtx) (w1 : World) (oid : Nat)
    (ostat : Option String) (tr : List Call) (fs : List Fate) :
    envelopeWF (uosShipPhase ctx w1 oid ostat tr fs).resp = true := by
  unfold uosShipPhase
  repeat' (first | split | dsimp only)
  all_goals solve
    | apply envelopeWF_uosShipped
    | apply envelopeWF_uosDelivered
    | apply envelopeWF_uosCancel
    | simp [finishUOS, envelopeWF]

theorem envelopeWF_updateOrderStatus (ctx : SagaCtx) (w : World) (oid : Nat)
    (sd : OrderUpdate) (fates : List Fate) :
    envelopeWF (updateOrderStatus ctx w oid sd fates).resp = true := by
  unfold updateOrderStatus
  repeat' (first | split | dsimp only)
  all_goals solve
    | apply envelopeWF_uosShipPhase
    | simp [envelopeWF]

theorem envelopeWF_processPayment (ctx : SagaCtx) (w : World) (oid : Nat)
    (action payment_id receipt_id : Option String) (fates : List Fate) :
    envelopeWF (processPayment ctx w oid action payment_id receipt_id fates).resp
      = true := by
  unfold processPayment
  repeat' (first | split | dsimp only)
  all_goals simp [payErr, payOk, envelopeWF]

theorem uosShipped_guard_noship (ctx : SagaCtx) (w1 : World) (oid : Nat)
    (osh : Option Shipment) (ostat : Option String) (tr : List Call)
    (fs : List Fate)
    (hg : (orders_get w1 oid).all
        (fun o => ! (o.payment_status == "COMPLETED")) = true) :
    (uosShipped ctx w1 oid osh ostat tr fs).world.shipments = w1.shipments
    ∧ (uosShipped ctx w1 oid osh ostat tr fs).trace
        = tr ++ [Call.orderGet oid] := by
  unfold uosShipped
  repeat' (first | split | dsimp only)
  all_goals solve
    | (constructor <;> simp_all [finishUOS, add_activity])

theorem uosShipPhase_guard_noship_world (ctx : SagaCtx) (w1 : World)
    (oid : Nat) (tr : List Call) (fs : List Fate)
    (hg : (orders_get w1 oid).all
        (fun o => ! (o.payment_status == "COMPLETED")) = true) :
    (uosShipPhase ctx w1 oid (some "SHIPPED") tr fs).world.shipments
        = w1.shipments := by
  unfold uosShipPhase
  repeat' (first | split | dsimp only)
  all_goals solve
    | simp_all [finishUOS, add_activity]
    | exact (uosShipped_guard_noship _ _ _ _ _ _ _ hg).1

theorem uosShipPhase_guard_noship_trace (ctx : SagaCtx) (w1 : World)
    (oid : Nat) (tr : List Call) (fs : List Fate)
    (hg : (orders_get w1 oid).all
        (fun o => ! (o.payment_status == "COMPLETED")) = true)
    (htr : tr.all (fun c => ! c.isShipmentWrite) = true) :
    (uosShipPhase ctx w1 oid (some "SHIPPED") tr fs).trace.all
        (fun c => ! c.isShipmentWrite) = true := by
  unfold uosShipPhase
  repeat' (first | split | dsimp only)
  all_goals solve
    | simp_all [finishUOS, List.all_append, List.mem_append,
        Call.isShipmentWrite]
    | (rw [(uosShipped_guard_noship _ _ _ _ _ _ _ hg).2]
       simp_all [List.all_append, List.mem_append, Call.isShipmentWrite])

/-! ## C9: both trigger endpoints always answer a structured envelope
(confirmed) -/

/-- C9: for every input world and every combination of downstream
deliveries and exceptions, `process_payment` and `update_order_status`
return an envelope whose success flag is accompanied by a message (on
success) or an error (on failure); no path escapes without an envelope. -/
theorem C9_structured_envelopes (ctx : SagaCtx) (w : World) (oid : Nat)
    (action payment_id receipt_id : Option String) (fates : List Fate)
    (sd : OrderUpdate) (fates2 : List Fate) :
    envelopeWF (processPayment ctx w oid action payment_id receipt_id fates).resp
        = true
    ∧ envelopeWF (updateOrderStatus ctx w oid sd fates2).resp = true :=
  ⟨envelopeWF_processPayment ctx w oid action payment_id receipt_id fates,
   envelopeWF_updateOrderStatus ctx w oid sd fates2⟩

/-! ## C5: ordering of the saga steps (corrected)

The claim says the order-status write is issued last, strictly after the
shipment side effects.  In `update_order_status` the order write (line 803)
is the first downstream call, and shipment effects follow it. -/

/-- C5 counterexample: an OrderStatusChange(SHIPPED) invocation on a paid
order with no shipment issues the order-status write first and the
shipment creation last — the order write is not the last step. -/
theorem C5_counterexample :
    (updateOrderStatus { nowIso := "T0", ts := 1000, username := "admin" }
        { orders := [{ id := 3, customer_id := 1, order_status := "PROCESSING"
                       payment_status := "COMPLETED", payment_id := none
                       receipt_id := none }]
          shipments := [], customers := [], nextShipmentId := 1, activities := [] }
        3 { order_status := some "SHIPPED" } []).trace
      = [Call.orderPut 3 { order_status := some "SHIPPED" },
         Call.shipmentsGet, Call.orderGet 3, Call.customersGet,
         Call.shipPost (shippedCreate { nowIso := "T0", ts := 1000, username := "admin" } 3)]
    ∧ ((updateOrderStatus { nowIso := "T0", ts := 1000, username := "admin" }
        { orders := [{ id := 3, customer_id := 1, order_status := "PROCESSING"
                       payment_status := "COMPLETED", payment_id := none
                       receipt_id := none }]
          shipments := [], customers := [], nextShipmentId := 1, activities := [] }
        3 { order_status := some "SHIPPED" } []).trace.getLast?).map
          Call.isOrderWrite = some false := ⟨rfl, rfl⟩

/-- C5 (amended): within every OrderStatusChange invocation the
order-status write is issued first — it is the head of the downstream call
trace — and no further order write occurs after it; the shipment side
effects all run after the order write. -/
theorem C5_amended_order_write_first (ctx : SagaCtx) (w : World) (oid : Nat)
    (sd : OrderUpdate) (fates : List Fate) :
    (updateOrderStatus ctx w oid sd fates).trace.head?
        = some (Call.orderPut oid sd)
    ∧ ((updateOrderStatus ctx w oid sd fates).trace.drop 1).all
        (fun c => ! c.isOrderWrite) = true := by
  unfold updateOrderStatus
  repeat' (first | split | dsimp only)
  all_goals solve
    | (apply uosShipPhase_trace_spec; simp)
    | (constructor <;> simp)

/-! ## C1: shipments only for completed payments (corrected)

The OrderStatusChange(SHIPPED) paths respect the guard, but the
PaymentDecision(approve) path creates a PENDING shipment even when the
order write was rejected, so a shipment can be created while
`payment_status != COMPLETED`. -/

/-- C1 counterexample: approving payment for an order whose payment is
already FAILED: the orders service rejects the finalization write (403),
yet `process_payment` still creates a shipment — a Shipment now exists
while the owning order's `payment_status` is `FAILED`. -/
theorem C1_counterexample :
    ((processPayment { nowIso := "T0", ts := 1000, username := "admin" }
        { orders := [{ id := 1, customer_id := 1, order_status := "CANCELLED"
                       payment_status := "FAILED", payment_id := none
                       receipt_id := none }]
          shipments := [], customers := [], nextShipmentId := 1, activities := [] }
        1 (some "approve") none none []).world.shipments.map Shipment.order_id
      = [1])
    ∧ ((processPayment { nowIso := "T0", ts := 1000, username := "admin" }
        { orders := [{ id := 1, customer_id := 1, order_status := "CANCELLED"
                       payment_status := "FAILED", payment_id := none
                       receipt_id := none }]
          shipments := [], customers := [], nextShipmentId := 1, activities := [] }
        1 (some "approve") none none []).world.orders.map Order.payment_status
      = ["FAILED"]) := ⟨rfl, rfl⟩

/-- C1 (amended): on every OrderStatusChange(SHIPPED) path, whenever the
invocation changed the shipment store at all — creating one or moving one
to IN_TRANSIT — the owning order's `payment_status` is COMPLETED; the
approve path of PaymentDecision does not enforce this (see the
counterexample). -/
theorem C1_amended_shipped_guard (ctx : SagaCtx) (w : World) (oid : Nat)
    (sd : OrderUpdate) (fates : List Fate)
    (hsd : sd.order_status = some "SHIPPED")
    (hne : (updateOrderStatus ctx w oid sd fates).world.shipments
        ≠ w.shipments) :
    ((updateOrderStatus ctx w oid sd fates).world.orders.find?
        (fun o => o.id == oid)).map Order.payment_status = some "COMPLETED" := by
  revert hne
  unfold updateOrderStatus
  rw [hsd]
  repeat' (first | split | dsimp only)
  all_goals intro hne
  all_goals first
    | exact absurd rfl hne
    | exact absurd (orders_update_shipments w oid sd) hne
    | (rw [uosShipPhase_orders]
       rw [show w.shipments = (orders_update w oid sd).2.shipments from
         (orders_update_shipments w oid sd).symm] at hne
       exact uosShipPhase_shipped_guard _ _ _ _ _ hne)

/-- Witness for `C1_amended_shipped_guard`: shipping a paid order creates
a shipment and the guard conclusion holds. -/
theorem C1_amended_shipped_guard_witness :
    ((updateOrderStatus { nowIso := "T0", ts := 1000, username := "admin" }
        { orders := [{ id := 3, customer_id := 1, order_status := "PROCESSING"
                       payment_status := "COMPLETED", payment_id := none
                       receipt_id := none }]
          shipments := [], customers := [], nextShipmentId := 1, activities := [] }
        3 { order_status := some "SHIPPED" } []).world.orders.find?
        (fun o => o.id == 3)).map Order.payment_status = some "COMPLETED" :=
  C1_amended_shipped_guard { nowIso := "T0", ts := 1000, username := "admin" }
    { orders := [{ id := 3, customer_id := 1, order_status := "PROCESSING"
                   payment_status := "COMPLETED", payment_id := none
                   receipt_id := none }]
      shipments := [], customers := [], nextShipmentId := 1, activities := [] }
    3 { order_status := some "SHIPPED" } [] rfl (by decide)

/-! ## C3: OrderStatusChange(SHIPPED) with incomplete payment (corrected)

The claim expects rejection with no write at all.  The code only suppresses
the shipment mutation: the order-status write itself is issued first and
succeeds, and the endpoint reports success. -/

/-- C3 counterexample: OrderStatusChange(SHIPPED) on an order with
`payment_status=PENDING` is not rejected: it answers success and the
order's `order_status` becomes SHIPPED (it was PENDING); only the shipment
store is untouched. -/
theorem C3_counterexample :
    ((updateOrderStatus { nowIso := "T0", ts := 1000, username := "admin" }
        { orders := [{ id := 2, customer_id := 1, order_status := "PENDING"
                       payment_status := "PENDING", payment_id := none
                       receipt_id := none }]
          shipments := [], customers := [], nextShipmentId := 1, activities := [] }
        2 { order_status := some "SHIPPED" } []).resp.success = true)
    ∧ ((updateOrderStatus { nowIso := "T0", ts := 1000, username := "admin" }
        { orders := [{ id := 2, customer_id := 1, order_status := "PENDING"
                       payment_status := "PENDING", payment_id := none
                       receipt_id := none }]
          shipments := [], customers := [], nextShipmentId := 1, activities := [] }
        2 { order_status := some "SHIPPED" } []).world.orders.map
          Order.order_status = ["SHIPPED"])
    ∧ ((updateOrderStatus { nowIso := "T0", ts := 1000, username := "admin" }
        { orders := [{ id := 2, customer_id := 1, order_status := "PENDING"
                       payment_status := "PENDING", payment_id := none
                       receipt_id := none }]
          shipments := [], customers := [], nextShipmentId := 1, activities := [] }
        2 { order_status := some "SHIPPED" } []).world.shipments = []) :=
  ⟨rfl, rfl, rfl⟩

/-- C3 (amended): when the order re-fetched after the initial write does
not have `payment_status = COMPLETED`, an OrderStatusChange(SHIPPED)
invocation performs no shipment write — the shipment store is unchanged and
no shipment-writing call is even issued — though the order write itself
proceeds and the endpoint reports success rather than rejecting. -/
theorem C3_amended_no_shipment_write (ctx : SagaCtx) (w : World) (oid : Nat)
    (sd : OrderUpdate) (fates : List Fate)
    (hsd : sd.order_status = some "SHIPPED")
    (hguard : ((orders_update w oid sd).2.orders.find? (fun o => o.id == oid)).all
        (fun o => ! (o.payment_status == "COMPLETED")) = true) :
    (updateOrderStatus ctx w oid sd fates).world.shipments = w.shipments
    ∧ (updateOrderStatus ctx w oid sd fates).trace.all
        (fun c => ! c.isShipmentWrite) = true := by
  revert hguard
  unfold updateOrderStatus
  rw [hsd]
  repeat' (first | split | dsimp only)
  all_goals intro hguard
  all_goals first
    | (constructor <;> simp [Call.isShipmentWrite])
    | (exact ⟨orders_update_shipments w oid sd,
        by simp [Call.isShipmentWrite]⟩)
    | (constructor
       · rw [uosShipPhase_guard_noship_world _ _ _ _ _ hguard]
         exact orders_update_shipments w oid sd
       · exact uosShipPhase_guard_noship_trace _ _ _ _ _ hguard
           (show ([Call.orderPut oid sd]).all
               (fun c => ! c.isShipmentWrite) = true by
             simp [Call.isShipmentWrite]))

/-- Witness for `C3_amended_no_shipment_write`: SHIPPED on a pending-payment
order leaves the shipment store empty and issues no shipment write. -/
theorem C3_amended_no_shipment_write_witness :
    (updateOrderStatus { nowIso := "T0", ts := 1000, username := "admin" }
        { orders := [{ id := 2, customer_id := 1, order_status := "PENDING"
                       payment_status := "PENDING", payment_id := none
                       receipt_id := none }]
          shipments := [], customers := [], nextShipmentId := 1, activities := [] }
        2 { order_status := some "SHIPPED" } []).world.shipments
      = ({ orders := [{ id := 2, customer_id := 1, order_status := "PENDING"
                        payment_status := "PENDING", payment_id := none
                        receipt_id := none }]
           shipments := [], customers := [], nextShipmentId := 1
           activities := [] } : World).shipments
    ∧ (updateOrderStatus { nowIso := "T0", ts := 1000, username := "admin" }
        { orders := [{ id := 2, customer_id := 1, order_status := "PENDING"
                       payment_status := "PENDING", payment_id := none
                       receipt_id := none }]
          shipments := [], customers := [], nextShipmentId := 1, activities := [] }
        2 { order_status := some "SHIPPED" } []).trace.all
        (fun c => ! c.isShipmentWrite) = true :=
  C3_amended_no_shipment_write { nowIso := "T0", ts := 1000, username := "admin" }
    { orders := [{ id := 2, customer_id := 1, order_status := "PENDING"
                   payment_status := "PENDING", payment_id := none
                   receipt_id := none }]
      shipments := [], customers := [], nextShipmentId := 1, activities := [] }
    2 { order_status := some "SHIPPED" } [] rfl (by decide)

/-! ## C2: repeated PaymentDecision(approve) (corrected)

The orders service does reject the repeated finalization write (HTTP 403),
so the order record is finalized exactly once; but the dashboard ignores
that rejection, reports success, and unconditionally creates another
PENDING shipment, so two approvals leave two shipments. -/

/-- C2 counterexample: approving the same order twice: after the first
call one shipment exists; after the second call two shipments exist for
the order and the second call still reports success — it is not
rejected. -/
theorem C2_counterexample :
    ((processPayment { nowIso := "T0", ts := 1000, username := "admin" }
        { orders := [{ id := 1, customer_id := 1, order_status := "PENDING"
                       payment_status := "PENDING", payment_id := none
                       receipt_id := none }]
          shipments := [], customers := [], nextShipmentId := 1, activities := [] }
        1 (some "approve") none none []).world.shipments.map Shipment.order_id
      = [1])
    ∧ ((processPayment { nowIso := "T0", ts := 1000, username := "admin" }
        (processPayment { nowIso := "T0", ts := 1000, username := "admin" }
          { orders := [{ id := 1, customer_id := 1, order_status := "PENDING"
                         payment_status := "PENDING", payment_id := none
                         receipt_id := none }]
            shipments := [], customers := [], nextShipmentId := 1, activities := [] }
          1 (some "approve") none none []).world
        1 (some "approve") none none []).world.shipments.map Shipment.order_id
      = [1, 1])
    ∧ ((processPayment { nowIso := "T0", ts := 1000, username := "admin" }
        (processPayment { nowIso := "T0", ts := 1000, username := "admin" }
          { orders := [{ id := 1, customer_id := 1, order_status := "PENDING"
                         payment_status := "PENDING", payment_id := none
                         receipt_id := none }]
            shipments := [], customers := [], nextShipmentId := 1, activities := [] }
          1 (some "approve") none none []).world
        1 (some "approve") none none []).resp.success = true) := ⟨rfl, rfl, rfl⟩

/-- C2 (amended): approving an order whose payment is already finalized
(COMPLETED or FAILED) leaves the order rows untouched — the orders service
rejects the repeated finalization, so exactly one finalization ever
applies — but the dashboard call is not rejected: it reports success and
appends one more PENDING shipment for the order. -/
theorem C2_amended_second_approve (ctx : SagaCtx) (w : World) (oid : Nat)
    (payment_id receipt_id : Option String) (o : Order)
    (ho : orders_get w oid = some o) (hfin : paymentFinalized o = true) :
    (processPayment ctx w oid (some "approve") payment_id receipt_id []).world.orders
        = w.orders
    ∧ (processPayment ctx w oid (some "approve") payment_id receipt_id []).world.shipments
        = w.shipments ++
          [{ id := w.nextShipmentId, order_id := oid, status := "PENDING"
             carrier := some "Standard Delivery"
             tracking_no := some (trkNo oid ctx.ts)
             shipped_at := some ctx.nowIso, delivered_at := none }]
    ∧ (processPayment ctx w oid (some "approve") payment_id receipt_id []).resp.success
        = true := by
  have htouch : touchingPaymentFields (approveUpdate payment_id receipt_id) = true := by
    simp [touchingPaymentFields, approveUpdate]
  have hupd : orders_update w oid (approveUpdate payment_id receipt_id) = (403, w) := by
    simp [orders_update, ho, hfin, htouch]
  refine ⟨?_, ?_, ?_⟩ <;>
    simp [processPayment, takeFate, ho, hupd, shipments_create, strFalsy,
      payOk, add_activity, trkNo]

/-- Witness for `C2_amended_second_approve`: a second approval of a
COMPLETED order adds one PENDING shipment and reports success. -/
theorem C2_amended_second_approve_witness :
    (processPayment { nowIso := "T0", ts := 1000, username := "admin" }
        { orders := [{ id := 1, customer_id := 1, order_status := "PROCESSING"
                       payment_status := "COMPLETED", payment_id := none
                       receipt_id := none }]
          shipments := [{ id := 1, order_id := 1, status := "PENDING"
                          carrier := some "Standard Delivery"
                          tracking_no := some "TRK11000"
                          shipped_at := some "T0", delivered_at := none }]
          customers := [], nextShipmentId := 2, activities := [] }
        1 (some "approve") none none []).world.orders
      = [{ id := 1, customer_id := 1, order_status := "PROCESSING"
           payment_status := "COMPLETED", payment_id := none
           receipt_id := none }]
    ∧ (processPayment { nowIso := "T0", ts := 1000, username := "admin" }
        { orders := [{ id := 1, customer_id := 1, order_status := "PROCESSING"
                       payment_status := "COMPLETED", payment_id := none
                       receipt_id := none }]
          shipments := [{ id := 1, order_id := 1, status := "PENDING"
                          carrier := some "Standard Delivery"
                          tracking_no := some "TRK11000"
                          shipped_at := some "T0", delivered_at := none }]
          customers := [], nextShipmentId := 2, activities := [] }
        1 (some "approve") none none []).world.shipments
      = [{ id := 1, order_id := 1, status := "PENDING"
           carrier := some "Standard Delivery"
           tracking_no := some "TRK11000"
           shipped_at := some "T0", delivered_at := none }] ++
        [{ id := 2, order_id := 1, status := "PENDING"
           carrier := some "Standard Delivery"
           tracking_no := some (trkNo 1 1000)
           shipped_at := some "T0", delivered_at := none }]
    ∧ (processPayment { nowIso := "T0", ts := 1000, username := "admin" }
        { orders := [{ id := 1, customer_id := 1, order_status := "PROCESSING"
                       payment_status := "COMPLETED", payment_id := none
                       receipt_id := none }]
          shipments := [{ id := 1, order_id := 1, status := "PENDING"
                          carrier := some "Standard Delivery"
                          tracking_no := some "TRK11000"
                          shipped_at := some "T0", delivered_at := none }]
          customers := [], nextShipmentId := 2, activities := [] }
        1 (some "approve") none none []).resp.success = true :=
  C2_amended_second_approve { nowIso := "T0", ts := 1000, username := "admin" }
    { orders := [{ id := 1, customer_id := 1, order_status := "PROCESSING"
                   payment_status := "COMPLETED", payment_id := none
                   receipt_id := none }]
      shipments := [{ id := 1, order_id := 1, status := "PENDING"
                      carrier := some "Standard Delivery"
                      tracking_no := some "TRK11000"
                      shipped_at := some "T0", delivered_at := none }]
      customers := [], nextShipmentId := 2, activities := [] }
    1 none none
    { id := 1, customer_id := 1, order_status := "PROCESSING"
      payment_status := "COMPLETED", payment_id := none, receipt_id := none }
    rfl rfl

end ECI
